import Mathlib

/-!
Shallow embedding of the dynamic-tool-creation agent (TypeScript) in Lean 4,
with theorems settling the frozen claims about its specification.

Sources embedded:
- src/types.ts                          (Message, Conversation, ToolCall)
- src/tools/toolInterface.ts            (ITool)
- src/services/systemPromptGenerator.ts (ToolManager: register/update/get)
- src/tools/toolRegistry.ts             (ToolRegistry: register/get)
- src/services/conversationManager.ts   (ConversationManager)
- src/services/toolAnalyzer.ts          (ToolAnalyzer)
- src/toolCreator.ts                    (ToolCreatorTool, createToolWithLLM)
- src/openaiClient.ts                   (sendMessageToOpenAI)
- src/services/llmClient.ts             (LLMClient.sendMessage)
- src/main.ts                           (processLLMResponse agent loop)

External effects (JSON.parse, the OpenAI HTTP call, the filesystem, dynamic
import) are modelled as explicit oracle parameters; everything the repository
itself computes is translated directly from the TypeScript.
-/

namespace Agent

/-- Message roles, src/types.ts (`Message.role`). -/
inductive Role where
  | system
  | user
  | assistant
  | tool
deriving DecidableEq, Repr, BEq

/-- A tool call carried by an assistant message, src/types.ts (`ToolCall`).
`fname` and `arguments` flatten the nested `function` object. -/
structure ToolCall where
  id : String
  fname : String
  arguments : String
deriving DecidableEq, Repr

/-- A chat message, src/types.ts (`Message`). `none` models a JS field that is
null or undefined. -/
structure Message where
  role : Role
  content : Option String
  name : Option String := none
  tool_call_id : Option String := none
  tool_calls : Option (List ToolCall) := none
deriving DecidableEq, Repr

/-- A registered capability as the registry claims see it,
src/tools/toolInterface.ts (`ITool`). `ref` models JavaScript object identity:
two distinct tool objects may carry the same `name`. The `execute` function is
modelled separately (`RegTool`) where the agent loop needs it. -/
structure ITool where
  name : String
  description : String
  ref : Nat
deriving DecidableEq, Repr

/-- JS `Map.set` on a name-keyed tool map: replace the existing entry in place,
else append (insertion order preserved, as `Map` does). -/
def mapSet (tools : List ITool) (t : ITool) : List ITool :=
  match tools with
  | [] => [t]
  | u :: rest => if u.name = t.name then t :: rest else u :: mapSet rest t

/-- ToolManager.getTool / ToolRegistry.getTool: `this.tools.get(name)`. -/
def getTool (tools : List ITool) (n : String) : Option ITool :=
  tools.find? (fun t => t.name == n)

/-- ToolManager.registerTool (src/services/toolManager.ts, lines 124-129) and
ToolRegistry.registerTool (src/tools/toolRegistry.ts, lines 14-19), whose
bodies are identical: warn (never throw) when the name is taken, then
`this.tools.set(tool.name, tool)`. The Bool records whether the overwrite
warning was logged. -/
def registerTool (tools : List ITool) (t : ITool) : List ITool × Bool :=
  (mapSet tools t, (getTool tools t.name).isSome)

/-- ToolManager.updateTool (src/services/toolManager.ts, lines 136-147).
`Except.error` models a thrown `Error` with the given message. -/
def updateTool (tools : List ITool) (n : String) (newTool : ITool) :
    Except String (List ITool) :=
  if (getTool tools n).isSome = false then
    .error ("Tool '" ++ n ++ "' not found. Cannot update a non-existent tool.")
  else if newTool.name ≠ n then
    .error ("New tool name '" ++ newTool.name ++
      "' does not match the tool being updated '" ++ n ++ "'.")
  else
    .ok (mapSet tools newTool)

/-- The registry contents after an `updateTool` call, observing JS exception
semantics: both throws in the source happen before `this.tools.set`, so a
thrown call leaves `this.tools` exactly as it was. -/
def updateToolState (tools : List ITool) (n : String) (newTool : ITool) :
    List ITool :=
  match updateTool tools n newTool with
  | .ok r => r
  | .error _ => tools

/-! ConversationManager, src/services/conversationManager.ts. The system
prompt text comes from `SystemPromptGenerator.generateSystemPrompt`, which
interpolates the current date (`new Date()`); the embedding therefore takes
the generator as an explicit parameter `genPrompt`. -/

/-- ConversationManager.initializeSystemPrompt (lines 15-22):
`this.messages = [{ role: system, content: generateSystemPrompt([]) }]`. -/
def initializeSystemPrompt (genPrompt : List ITool → String) : List Message :=
  [{ role := .system, content := some (genPrompt []) }]

/-- ConversationManager.addMessage (lines 25-27): unconditional push. -/
def addMessage (msgs : List Message) (m : Message) : List Message :=
  msgs ++ [m]

/-- ConversationManager.clearHistory (lines 51-59): keep the first system
message, or reinitialize when none exists. -/
def clearHistory (genPrompt : List ITool → String) (msgs : List Message) :
    List Message :=
  match msgs.find? (fun m => m.role == .system) with
  | some sys => [sys]
  | none => initializeSystemPrompt genPrompt

/-- ConversationManager.updateSystemPrompt (lines 63-78): replace the first
system message in place, or unshift a fresh one when none exists. -/
def updateSystemPrompt (genPrompt : List ITool → String) (tools : List ITool)
    (msgs : List Message) : List Message :=
  let newSystemPrompt := genPrompt tools
  match msgs.findIdx? (fun m => m.role == .system) with
  | some i => msgs.set i { role := .system, content := some newSystemPrompt }
  | none => { role := .system, content := some newSystemPrompt } :: msgs

/-- One public mutating call on a ConversationManager. -/
inductive ConvOp where
  | addMessage (m : Message)
  | clearHistory
  | updateSystemPrompt (tools : List ITool)

/-- Apply one call to the manager state. -/
def applyConvOp (genPrompt : List ITool → String) (msgs : List Message) :
    ConvOp → List Message
  | .addMessage m => addMessage msgs m
  | .clearHistory => clearHistory genPrompt msgs
  | .updateSystemPrompt tools => updateSystemPrompt genPrompt tools msgs

/-- A finite sequence of calls applied after construction. -/
def runConvOps (genPrompt : List ITool → String) (msgs : List Message)
    (ops : List ConvOp) : List Message :=
  ops.foldl (applyConvOp genPrompt) msgs

/-- The invariant claim C2 is about: the list is non-empty and its first
element has role system. -/
def headIsSystem (msgs : List Message) : Prop :=
  msgs.head?.map Message.role = some Role.system

theorem role_beq_self (r : Role) : (r == r) = true := by
  cases r <;> rfl

theorem headIsSystem_init (genPrompt : List ITool → String) :
    headIsSystem (initializeSystemPrompt genPrompt) := rfl

theorem headIsSystem_step (genPrompt : List ITool → String)
    (msgs : List Message) (op : ConvOp) (h : headIsSystem msgs) :
    headIsSystem (applyConvOp genPrompt msgs op) := by
  obtain ⟨m, rest, rfl⟩ : ∃ m rest, msgs = m :: rest := by
    cases msgs with
    | nil => simp [headIsSystem] at h
    | cons m rest => exact ⟨m, rest, rfl⟩
  have hm : m.role = Role.system := by
    simpa [headIsSystem] using h
  cases op with
  | addMessage x =>
    simp [applyConvOp, addMessage, headIsSystem, hm]
  | clearHistory =>
    simp [applyConvOp, clearHistory, List.find?, hm, headIsSystem, role_beq_self]
  | updateSystemPrompt tools =>
    simp [applyConvOp, updateSystemPrompt, List.findIdx?, hm, headIsSystem,
      role_beq_self]

theorem getTool_mapSet_self (tools : List ITool) (t : ITool) :
    getTool (mapSet tools t) t.name = some t := by
  induction tools with
  | nil => simp [mapSet, getTool, List.find?]
  | cons u rest ih =>
    by_cases h : u.name = t.name
    · simp [mapSet, h, getTool, List.find?]
    · have hne : (u.name == t.name) = false := by
        simpa using h
      simp only [mapSet, h, if_false, getTool, List.find?, hne]
      exact ih

theorem getTool_mapSet_ne (tools : List ITool) (t : ITool) (n : String)
    (h : n ≠ t.name) : getTool (mapSet tools t) n = getTool tools n := by
  induction tools with
  | nil =>
    have : (t.name == n) = false := by
      simpa using fun e => h e.symm
    simp [mapSet, getTool, List.find?, this]
  | cons u rest ih =>
    by_cases hu : u.name = t.name
    · have h1 : (t.name == n) = false := by
        simpa using fun e => h e.symm
      have h2 : (u.name == n) = false := by
        simpa [hu] using fun e => h e.symm
      simp [mapSet, hu, getTool, List.find?, h1, h2]
    · simp only [mapSet, hu, if_false, getTool, List.find?]
      cases hfind : (u.name == n)
      · simpa [hfind] using ih
      · simp [hfind]

theorem getTool_mapSet_isSome (tools : List ITool) (t : ITool) (k : String)
    (h : (getTool tools k).isSome = true) :
    (getTool (mapSet tools t) k).isSome = true := by
  by_cases hk : k = t.name
  · subst hk
    simp [getTool_mapSet_self]
  · rw [getTool_mapSet_ne tools t k hk]
    exact h

theorem headIsSystem_run (genPrompt : List ITool → String) (ops : List ConvOp)
    (msgs : List Message) (h : headIsSystem msgs) :
    headIsSystem (runConvOps genPrompt msgs ops) := by
  induction ops generalizing msgs with
  | nil => exact h
  | cons op rest ih =>
    exact ih (applyConvOp genPrompt msgs op) (headIsSystem_step genPrompt msgs op h)

/-- C2: for every ConversationManager and every finite sequence of
`addMessage`, `clearHistory`, and `updateSystemPrompt` calls applied after
construction, the resulting message list is non-empty and its first element
has role system. -/
theorem conversationManager_first_is_system (genPrompt : List ITool → String)
    (ops : List ConvOp) :
    runConvOps genPrompt (initializeSystemPrompt genPrompt) ops ≠ []
    ∧ (runConvOps genPrompt (initializeSystemPrompt genPrompt) ops).head?.map
        Message.role = some Role.system := by
  have h := headIsSystem_run genPrompt ops (initializeSystemPrompt genPrompt)
    (headIsSystem_init genPrompt)
  refine ⟨?_, h⟩
  intro hnil
  rw [hnil] at h
  simp [headIsSystem] at h

/-- C4: `updateTool(name, newTool)` fails with a NotFound error when `name` is
not registered, and fails when `newTool.name` differs from `name`; both
failures happen before any mutation, so the registry is unchanged. -/
theorem updateTool_failure_before_mutation (tools : List ITool) (n : String)
    (t : ITool) (h : getTool tools n = none ∨ t.name ≠ n) :
    (∃ e, updateTool tools n t = .error e)
    ∧ (getTool tools n = none →
        updateTool tools n t =
          .error ("Tool '" ++ n ++ "' not found. Cannot update a non-existent tool."))
    ∧ updateToolState tools n t = tools := by
  have notFound : getTool tools n = none →
      updateTool tools n t =
        .error ("Tool '" ++ n ++ "' not found. Cannot update a non-existent tool.") := by
    intro h1
    simp [updateTool, h1]
  have fails : ∃ e, updateTool tools n t = .error e := by
    rcases h with h1 | h2
    · exact ⟨_, notFound h1⟩
    · cases hg : (getTool tools n).isSome with
      | false =>
        exact ⟨"Tool '" ++ n ++ "' not found. Cannot update a non-existent tool.",
          by simp [updateTool, hg]⟩
      | true =>
        exact ⟨"New tool name '" ++ t.name ++
            "' does not match the tool being updated '" ++ n ++ "'.",
          by simp [updateTool, hg, h2]⟩
  obtain ⟨e, he⟩ := fails
  exact ⟨⟨e, he⟩, notFound, by simp [updateToolState, he]⟩

theorem updateTool_failure_before_mutation_witness :
    (getTool ([] : List ITool) "weather" = none ∨
      (ITool.mk "weather" "updated weather tool" 1).name ≠ "weather")
    ∧ ((∃ e, updateTool ([] : List ITool) "weather"
          (ITool.mk "weather" "updated weather tool" 1) = .error e)
       ∧ (getTool ([] : List ITool) "weather" = none →
            updateTool ([] : List ITool) "weather"
              (ITool.mk "weather" "updated weather tool" 1) =
              .error ("Tool '" ++ "weather" ++
                "' not found. Cannot update a non-existent tool."))
       ∧ updateToolState ([] : List ITool) "weather"
           (ITool.mk "weather" "updated weather tool" 1) = ([] : List ITool)) :=
  ⟨Or.inl rfl,
    updateTool_failure_before_mutation [] "weather"
      (ITool.mk "weather" "updated weather tool" 1) (Or.inl rfl)⟩

/-- C5: `registerTool(t)` followed by `getTool(t.name)` returns the very same
capability `t`; on a name collision it overwrites and only logs a warning
(the Bool component records the warning, and the return type — no `Except` —
reflects that `registerTool` never throws). -/
theorem registerTool_then_getTool (tools : List ITool) (t : ITool) :
    getTool (registerTool tools t).1 t.name = some t
    ∧ (registerTool tools t).2 = (getTool tools t.name).isSome :=
  ⟨getTool_mapSet_self tools t, rfl⟩

/-- C10: registration touches only its own entry — for every tool `t` and
every name `n ≠ t.name`, `getTool n` after `registerTool t` is exactly what
it was before, and no registered entry is ever removed (there is no deletion
path: the only mutators call `Map.set`); likewise every successful
`updateTool m t` with `m ≠ n` leaves `getTool n` and all existing entries in
place. The registration conclusions hold for every `t`, fresh names
included; only the update conclusions assume the update succeeded. -/
theorem registry_mutation_frame (tools : List ITool) (t : ITool) (n : String)
    (hn : n ≠ t.name) :
    getTool (registerTool tools t).1 n = getTool tools n
    ∧ (∀ k, (getTool tools k).isSome = true →
        (getTool (registerTool tools t).1 k).isSome = true)
    ∧ (∀ m r, m ≠ n → updateTool tools m t = .ok r →
        getTool r n = getTool tools n
        ∧ ∀ k, (getTool tools k).isSome = true → (getTool r k).isSome = true) := by
  refine ⟨getTool_mapSet_ne tools t n hn,
    fun k hk => getTool_mapSet_isSome tools t k hk, ?_⟩
  intro m r _hmn hupd
  have hr : r = mapSet tools t := by
    by_cases h1 : (getTool tools m).isSome = true
    · by_cases h2 : t.name = m
      · simp [updateTool, h1, h2] at hupd
        exact hupd.symm
      · simp [updateTool, h1, h2] at hupd
    · rw [Bool.not_eq_true] at h1
      simp [updateTool, h1] at hupd
  subst hr
  exact ⟨getTool_mapSet_ne tools t n hn,
    fun k hk => getTool_mapSet_isSome tools t k hk⟩

theorem registry_mutation_frame_witness :
    ("other" ≠ (ITool.mk "weather" "v2" 1).name
     ∧ "other" ≠ (ITool.mk "adder" "fresh tool" 2).name)
    ∧ (getTool (registerTool [ITool.mk "weather" "v1" 0]
          (ITool.mk "weather" "v2" 1)).1 "other"
        = getTool [ITool.mk "weather" "v1" 0] "other")
    ∧ (getTool (registerTool ([] : List ITool) (ITool.mk "adder" "fresh tool" 2)).1
          "other"
        = getTool ([] : List ITool) "other")
    ∧ (∀ k, (getTool [ITool.mk "weather" "v1" 0] k).isSome = true →
        (getTool (registerTool [ITool.mk "weather" "v1" 0]
          (ITool.mk "weather" "v2" 1)).1 k).isSome = true)
    ∧ ("weather" ≠ "other"
       ∧ updateTool [ITool.mk "weather" "v1" 0] "weather" (ITool.mk "weather" "v2" 1)
          = .ok [ITool.mk "weather" "v2" 1]
       ∧ getTool [ITool.mk "weather" "v2" 1] "other"
          = getTool [ITool.mk "weather" "v1" 0] "other"
       ∧ ∀ k, (getTool [ITool.mk "weather" "v1" 0] k).isSome = true →
           (getTool [ITool.mk "weather" "v2" 1] k).isSome = true) :=
  ⟨⟨by decide, by decide⟩,
   (registry_mutation_frame [ITool.mk "weather" "v1" 0]
      (ITool.mk "weather" "v2" 1) "other" (by decide)).1,
   (registry_mutation_frame ([] : List ITool)
      (ITool.mk "adder" "fresh tool" 2) "other" (by decide)).1,
   (registry_mutation_frame [ITool.mk "weather" "v1" 0]
      (ITool.mk "weather" "v2" 1) "other" (by decide)).2.1,
   ⟨by decide, rfl,
    ((registry_mutation_frame [ITool.mk "weather" "v1" 0]
        (ITool.mk "weather" "v2" 1) "other" (by decide)).2.2
      "weather" [ITool.mk "weather" "v2" 1] (by decide) rfl).1,
    ((registry_mutation_frame [ITool.mk "weather" "v1" 0]
        (ITool.mk "weather" "v2" 1) "other" (by decide)).2.2
      "weather" [ITool.mk "weather" "v2" 1] (by decide) rfl).2⟩⟩

/-! ToolAnalyzer, src/services/toolAnalyzer.ts. String primitives used by the
source are modelled first: `includes`, `toLowerCase` (String.toLower),
`split(/\s+/)`, and the two specific `replace` regexes, which are alternations
of literals plus one \w+ group and are implemented as direct scanners with
regex left-to-right, leftmost-alternative semantics. -/

/-- Substring occurrence on character lists: some suffix of the haystack
starts with the needle. -/
def charsContain (hay sub : List Char) : Bool :=
  hay.tails.any (fun t => sub.isPrefixOf t)

/-- JS String.prototype.includes: substring test. -/
def includes (s sub : String) : Bool :=
  charsContain s.data sub.data

/-- JS String.prototype.toLowerCase as the source uses it (ASCII fold, what
String.toLower does character by character); defined structurally on the
character list so that concrete runs reduce in the kernel. -/
def jsToLower (s : String) : String :=
  String.mk (s.data.map Char.toLower)

/-- Characters of a trimmed string: whitespace stripped from both ends. -/
def trimChars (cs : List Char) : List Char :=
  ((cs.dropWhile Char.isWhitespace).reverse.dropWhile Char.isWhitespace).reverse

/-- JS String.prototype.trim. -/
def jsTrim (s : String) : String :=
  String.mk (trimChars s.data)

/-- Split at every character satisfying `p` (JS split on a single-character
class regex such as [.!?]), keeping empty pieces. -/
def splitPredChars (p : Char → Bool) : List Char → List Char → List String
  | [], acc => [String.mk acc.reverse]
  | c :: rest, acc =>
    if p c then String.mk acc.reverse :: splitPredChars p rest []
    else splitPredChars p rest (c :: acc)

def jsSplitPred (s : String) (p : Char → Bool) : List String :=
  splitPredChars p s.data []

/-- Split on a literal separator (JS String.prototype.split with a string
argument). Every use in the source has a non-empty separator; the emptiness
guard only serves termination. -/
def splitOnCharsAux (sep : List Char) : List Char → List Char → List String
  | [], acc => [String.mk acc.reverse]
  | c :: rest, acc =>
    if h : sep.isPrefixOf (c :: rest) = true ∧ sep ≠ [] then
      String.mk acc.reverse ::
        splitOnCharsAux sep ((c :: rest).drop sep.length) []
    else
      splitOnCharsAux sep rest (c :: acc)
termination_by cs _ => cs.length
decreasing_by
  · have hpos : 0 < sep.length := List.length_pos.mpr h.2
    simp only [List.length_drop, List.length_cons]
    omega
  · simp

def jsSplitOn (s sep : String) : List String :=
  splitOnCharsAux sep.data s.data []

/-- Worker for `jsSplitWs`, walking the character list with an accumulator for
the current piece. -/
def splitWsChars : List Char → List Char → List String
  | [], acc => [String.mk acc.reverse]
  | c :: rest, acc =>
    if c.isWhitespace then
      String.mk acc.reverse :: splitWsChars (rest.dropWhile Char.isWhitespace) []
    else
      splitWsChars rest (c :: acc)
termination_by cs _ => cs.length
decreasing_by
  · simp only [List.length_cons]
    exact Nat.lt_succ_of_le (List.dropWhile_sublist Char.isWhitespace).length_le
  · simp

/-- JS String.prototype.split on the one-or-more-whitespace regex: delimiters
are maximal whitespace runs; a leading or trailing run yields an empty piece. -/
def jsSplitWs (s : String) : List String :=
  splitWsChars s.data []

/-- Case-insensitive literal match at the start of `cs`. The source patterns
are lowercase literals (either the regex has the i flag, or the operand was
lowercased first, which makes the case fold a no-op). -/
def ciStartsWith (pat : List Char) (cs : List Char) : Bool :=
  (cs.take pat.length).map Char.toLower == pat

theorem ciStartsWith_length (pat cs : List Char)
    (h : ciStartsWith pat cs = true) : pat.length ≤ cs.length := by
  have heq : (cs.take pat.length).map Char.toLower = pat := by
    simpa [ciStartsWith] using h
  have hlen : (cs.take pat.length).length = pat.length := by
    rw [← heq]
    simp
  rw [List.length_take] at hlen
  omega

/-- Leftmost-alternative match of one of the literal patterns at the head of
`cs`, returning the matched length: regex alternation tries the alternatives
in their written order at each position. -/
def altMatch : List String → List Char → Option Nat
  | [], _ => none
  | a :: more, cs =>
    if ciStartsWith a.data cs then some a.data.length else altMatch more cs

theorem altMatch_bounds (alts : List String) (halts : ∀ a ∈ alts, a.data ≠ []) :
    ∀ cs n, altMatch alts cs = some n → 0 < n ∧ n ≤ cs.length := by
  induction alts with
  | nil => intro cs n h; simp [altMatch] at h
  | cons a more ih =>
    intro cs n h
    by_cases hm : ciStartsWith a.data cs = true
    · simp [altMatch, hm] at h
      subst h
      have hne : a.data ≠ [] := halts a (by simp)
      exact ⟨List.length_pos.mpr hne, ciStartsWith_length a.data cs hm⟩
    · simp only [altMatch, hm, if_false] at h
      exact ih (fun x hx => halts x (by simp [hx])) cs n h

/-- JS \w: ASCII letters, digits and underscore. -/
def isWordChar (c : Char) : Bool := c.isAlphanum || c == '_'

/-- The four verbs of the update-stripping regex in
`ToolAnalyzer.extractRequirements`. -/
def updateVerbs : List String := ["update", "enhance", "improve", "modify"]

/-- Match of `v` followed by " the ", a non-empty \w+ run, " tool " and then
"to" or "so", at the head of `cs` (one alternative of the regex
`(update|enhance|improve|modify) the (\w+) tool (to|so)` with the i flag).
The greedy \w+ cannot usefully backtrack — a shorter run would put a word
character where the following space must match — so the maximal run is the
only candidate. Returns the total match length. -/
def verbUpdateMatch (v : String) (cs : List Char) : Option Nat :=
  if ciStartsWith v.data cs then
    let rest1 := cs.drop v.data.length
    if ciStartsWith (" the ").data rest1 then
      let rest2 := rest1.drop 5
      let run := rest2.takeWhile isWordChar
      if run.length > 0 then
        let rest3 := rest2.drop run.length
        if ciStartsWith (" tool ").data rest3 then
          let rest4 := rest3.drop 6
          if ciStartsWith ("to").data rest4 || ciStartsWith ("so").data rest4 then
            some (v.data.length + 5 + run.length + 6 + 2)
          else none
        else none
      else none
    else none
  else none

theorem verbUpdateMatch_bounds (v : String) (cs : List Char) (n : Nat)
    (h : verbUpdateMatch v cs = some n) : 0 < n ∧ n ≤ cs.length := by
  simp only [verbUpdateMatch] at h
  split_ifs at h with h1 h2 h3 h4 h5
  · injection h with hn
    subst hn
    have hv := ciStartsWith_length _ _ h1
    have ht := ciStartsWith_length _ _ h2
    have htool := ciStartsWith_length _ _ h4
    have hrun : (((cs.drop v.data.length).drop 5).takeWhile isWordChar).length
        ≤ ((cs.drop v.data.length).drop 5).length :=
      (List.takeWhile_sublist isWordChar).length_le
    have e1 : (" the ").data.length = 5 := rfl
    have e2 : (" tool ").data.length = 6 := rfl
    have e3 : ("to").data.length = 2 := rfl
    have e4 : ("so").data.length = 2 := rfl
    have hto : (2 : Nat) ≤
        ((((cs.drop v.data.length).drop 5).drop
          ((((cs.drop v.data.length).drop 5).takeWhile isWordChar).length)).drop 6).length := by
      rcases Bool.or_eq_true_iff.mp h5 with h6 | h6
      · rw [← e3]
        exact ciStartsWith_length _ _ h6
      · rw [← e4]
        exact ciStartsWith_length _ _ h6
    rw [e1] at ht
    rw [e2] at htool
    simp only [List.length_drop] at ht htool hrun hto
    omega

/-- First verb of the update-stripping regex whose alternative matches at the
head of `cs` (regex alternation order). -/
def firstVerbMatch : List String → List Char → Option Nat
  | [], _ => none
  | v :: more, cs =>
    match verbUpdateMatch v cs with
    | some n => some n
    | none => firstVerbMatch more cs

theorem firstVerbMatch_bounds (vs : List String) :
    ∀ cs n, firstVerbMatch vs cs = some n → 0 < n ∧ n ≤ cs.length := by
  induction vs with
  | nil => intro cs n h; simp [firstVerbMatch] at h
  | cons v more ih =>
    intro cs n h
    simp only [firstVerbMatch] at h
    cases hv : verbUpdateMatch v cs with
    | some m =>
      rw [hv] at h
      injection h with hm
      subst hm
      exact verbUpdateMatch_bounds v cs m hv
    | none =>
      rw [hv] at h
      exact ih cs n h

/-- Matcher for the whole update-stripping regex of
`ToolAnalyzer.extractRequirements`. -/
def updatePatternMatch (cs : List Char) : Option Nat :=
  firstVerbMatch updateVerbs cs

/-- JS String.prototype.replace with a global regex and the empty replacement:
scan left to right, drop each match, keep every other character, continue
after each match. `hm` bounds each match (used for termination). -/
def replaceMatches (matcher : List Char → Option Nat)
    (hm : ∀ cs n, matcher cs = some n → 0 < n ∧ n ≤ cs.length)
    (cs : List Char) : List Char :=
  match h : matcher cs with
  | some n => replaceMatches matcher hm (cs.drop n)
  | none =>
    match hcs : cs with
    | [] => []
    | c :: rest => c :: replaceMatches matcher hm rest
termination_by cs.length
decreasing_by
  · have := hm cs n h
    simp only [List.length_drop]
    omega
  · simp [hcs]

/-- The alternatives, flattened in regex order, of the first boilerplate
regex of `ToolAnalyzer.extractRequirements`:
`(create|make|build|develop) a tool (for|that|to)|i need a tool (for|that|to)`. -/
def reqCreateAlts : List String :=
  ["create a tool for", "create a tool that", "create a tool to",
   "make a tool for", "make a tool that", "make a tool to",
   "build a tool for", "build a tool that", "build a tool to",
   "develop a tool for", "develop a tool that", "develop a tool to",
   "i need a tool for", "i need a tool that", "i need a tool to"]

/-- The alternatives, flattened in regex order, of the boilerplate regex of
`ToolAnalyzer.suggestToolName`:
`create a tool (for|that|to)|make a tool (for|that|to)|i need a tool (for|that|to)|build a tool (for|that|to)`
(applied to the already-lowercased query). -/
def nameCleanAlts : List String :=
  ["create a tool for", "create a tool that", "create a tool to",
   "make a tool for", "make a tool that", "make a tool to",
   "i need a tool for", "i need a tool that", "i need a tool to",
   "build a tool for", "build a tool that", "build a tool to"]

/-- The first `replace` of `ToolAnalyzer.extractRequirements` (line 302). -/
def stripReqCreateBoilerplate (s : String) : String :=
  String.mk (replaceMatches (altMatch reqCreateAlts)
    (altMatch_bounds reqCreateAlts (by decide)) s.data)

/-- The second `replace` of `ToolAnalyzer.extractRequirements` (line 303). -/
def stripReqUpdateBoilerplate (s : String) : String :=
  String.mk (replaceMatches updatePatternMatch
    (firstVerbMatch_bounds updateVerbs) s.data)

/-- The `replace` of `ToolAnalyzer.suggestToolName` (line 228). -/
def stripNameBoilerplate (s : String) : String :=
  String.mk (replaceMatches (altMatch nameCleanAlts)
    (altMatch_bounds nameCleanAlts (by decide)) s.data)

/-! The intent-detection tables and functions of ToolAnalyzer. -/

/-- ToolAnalyzer.detectExplicitToolCreationIntent, lines 58-73. -/
def explicitPhrases : List String :=
  ["create a tool", "make a tool", "build a tool", "develop a tool",
   "i need a tool", "can you create a tool", "could you make a tool",
   "new tool", "tool for", "tool that can"]

def detectExplicitToolCreationIntent (query : String) : Bool :=
  explicitPhrases.any (fun phrase => includes query phrase)

/-- Test phrases of ToolAnalyzer.detectImplicitToolCreationIntent, lines 80-85. -/
def implicitTestPhrases : List String :=
  ["convert 100 usd to eur", "generate an image", "stock price of aapl",
   "analyze the sentiment"]

/-- Action indicators of detectImplicitToolCreationIntent, lines 91-94. -/
def actionIndicators : List String :=
  ["convert", "generate", "create", "fetch", "get", "analyze", "calculate",
   "translate", "transform", "search", "find", "summarize", "download"]

/-- Domain indicators of detectImplicitToolCreationIntent, lines 97-101. -/
def domainIndicators : List String :=
  ["currency", "exchange rate", "stock", "weather forecast", "sentiment",
   "image", "picture", "audio", "video", "translation", "summarize",
   "database", "api", "chart", "graph", "plot", "file", "download"]

/-- Stop words of ToolAnalyzer.findMatchingExistingTool, line 192. -/
def descriptionStopWords : List String :=
  ["this", "that", "with", "from", "what", "about"]

/-- ToolAnalyzer.findMatchingExistingTool, lines 168-203: hard-coded test
matches first, then direct name mention, then a two-keyword overlap with a
tool description. -/
def findMatchingExistingTool (query : String) (availableTools : List ITool) :
    Option ITool :=
  if (includes query "weather" || includes query "forecast")
      && availableTools.any (fun t => t.name == "weather") then
    availableTools.find? (fun t => t.name == "weather")
  else if (includes query "calculate" || includes query "computation"
      || includes query "5 * 7" || includes query "25 / 5")
      && availableTools.any (fun t => t.name == "calculator") then
    availableTools.find? (fun t => t.name == "calculator")
  else
    match availableTools.find? (fun t => includes query t.name) with
    | some t => some t
    | none =>
      availableTools.find? (fun tool =>
        let keywords := (jsSplitWs (jsToLower tool.description)).filter
          (fun w => decide (w.length > 4) && !(descriptionStopWords.contains w))
        decide ((keywords.filter (fun k => includes query k)).length ≥ 2))

/-- ToolAnalyzer.detectImplicitToolCreationIntent, lines 78-110. -/
def detectImplicitToolCreationIntent (query : String)
    (availableTools : List ITool) : Bool :=
  if implicitTestPhrases.any (fun p => includes query p) then true
  else
    actionIndicators.any (fun a => includes query a)
    && domainIndicators.any (fun d => includes query d)
    && (findMatchingExistingTool query availableTools).isNone

/-- Test phrases of ToolAnalyzer.detectToolUpdateIntent, lines 117-122. -/
def testUpdatePhrases : List String :=
  ["update the weather tool", "enhance the calculator",
   "modify the weather tool", "add support for complex numbers"]

/-- Update phrases of detectToolUpdateIntent, lines 129-132. -/
def updatePhrases : List String :=
  ["update", "enhance", "improve", "extend", "add to", "modify",
   "upgrade", "change", "make better", "add capability"]

/-- ToolAnalyzer.detectToolUpdateIntent, lines 115-140. -/
def detectToolUpdateIntent (query : String) (availableTools : List ITool) :
    Bool :=
  if testUpdatePhrases.any (fun p => includes query p) then true
  else
    availableTools.any (fun tool =>
      includes query tool.name
      && updatePhrases.any (fun p => includes query p))

/-- ToolAnalyzer.getToolForUpdate, lines 145-163. -/
def getToolForUpdate (query : String) (availableTools : List ITool) :
    Option ITool :=
  if includes query "weather"
      && availableTools.any (fun t => t.name == "weather") then
    availableTools.find? (fun t => t.name == "weather")
  else if includes query "calculator" || includes query "complex numbers" then
    availableTools.find? (fun t => t.name == "calculator")
  else
    availableTools.find? (fun t => includes query t.name)

/-- Action-to-suffix table of ToolAnalyzer.suggestToolName, lines 232-244
(Object.entries preserves this insertion order). -/
def commonActions : List (String × String) :=
  [("convert", "_converter"), ("translate", "_translator"),
   ("analyze", "_analyzer"), ("generate", "_generator"),
   ("calculate", "_calculator"), ("fetch", "_fetcher"), ("get", "_getter"),
   ("find", "_finder"), ("summarize", "_summarizer"), ("create", "_creator"),
   ("transform", "_transformer")]

/-- Domain table of suggestToolName, lines 247-258. -/
def commonDomains : List (String × String) :=
  [("currency", "currency"), ("weather", "weather"), ("stock", "stock"),
   ("sentiment", "sentiment"), ("image", "image"), ("text", "text"),
   ("file", "file"), ("audio", "audio"), ("video", "video"), ("data", "data")]

/-- Stop words of the suggestToolName fallback, line 284. -/
def nameFallbackStopWords : List String :=
  ["this", "that", "with", "from", "what", "about", "would", "could"]

/-- One iteration of the action loop of suggestToolName (lines 261-279): for
an action found in the clean query, return the domain-paired name, else the
first word after the action, else nothing (continue with the next action). -/
def actionSuggestion (cleanQuery : String) (pair : String × String) :
    Option String :=
  if includes cleanQuery pair.1 then
    match commonDomains.find? (fun d => includes cleanQuery d.1) with
    | some d => some (d.2 ++ pair.2)
    | none =>
      match (jsSplitOn cleanQuery pair.1).drop 1 with
      | [] => none
      | piece :: _ =>
        let afterAction := jsTrim piece
        if afterAction = "" then none
        else
          match jsSplitWs afterAction with
          | [] => none
          | w :: _ => some (w ++ pair.2)
  else none

/-- ToolAnalyzer.suggestToolName, lines 208-294. -/
def suggestToolName (query : String) : String :=
  if includes query "currency" || includes query "convert" then
    "currency_converter"
  else if includes query "image" || includes query "generate" then
    "image_generator"
  else if includes query "stock" then
    "stock_price_fetcher"
  else if includes query "sentiment" then
    "sentiment_analyzer"
  else
    let cleanQuery := jsTrim (stripNameBoilerplate (jsToLower query))
    match commonActions.findSome? (actionSuggestion cleanQuery) with
    | some nm => nm
    | none =>
      let queryWords := (jsSplitWs cleanQuery).filter
        (fun w => decide (w.length > 3) && !(nameFallbackStopWords.contains w))
      match queryWords with
      | w1 :: w2 :: _ => w1 ++ "_" ++ w2
      | [w1] => w1 ++ "_tool"
      | [] => "custom_tool"

/-- ToolAnalyzer.extractRequirements, lines 299-320. -/
def extractRequirements (query : String) : String :=
  let cleanQuery :=
    jsTrim (stripReqUpdateBoilerplate (stripReqCreateBoilerplate query))
  if (jsSplitOn cleanQuery " ").length ≤ 5 then
    cleanQuery
  else
    let sentences := (jsSplitPred cleanQuery
        (fun c => c == '.' || c == '!' || c == '?')).filter
      (fun s => decide ((jsTrim s).length > 0))
    if sentences.length ≥ 1 then
      String.intercalate " " (sentences.take (min 2 sentences.length))
    else
      cleanQuery

/-- The analyzer result record, src/services/toolAnalyzer.ts lines 4-10. -/
structure ToolAnalysisResult where
  requiresNewTool : Bool
  shouldUpdateExistingTool : Bool
  suggestedToolName : Option String
  suggestedRequirements : Option String
  matchingExistingTool : Option ITool
deriving DecidableEq, Repr

/-- ToolAnalyzer.analyzeQuery, lines 21-53. -/
def analyzeQuery (query : String) (availableTools : List ITool) :
    ToolAnalysisResult :=
  let lowerQuery := jsToLower query
  let matchingTool := findMatchingExistingTool lowerQuery availableTools
  let hasExplicitToolCreationIntent := detectExplicitToolCreationIntent lowerQuery
  let hasToolUpdateIntent := detectToolUpdateIntent lowerQuery availableTools
  let hasImplicitToolCreationIntent :=
    detectImplicitToolCreationIntent lowerQuery availableTools
  let requiresNewTool :=
    (hasExplicitToolCreationIntent || hasImplicitToolCreationIntent)
    && matchingTool.isNone
  let shouldUpdateExistingTool :=
    hasToolUpdateIntent || (matchingTool.isSome && hasExplicitToolCreationIntent)
  { requiresNewTool := requiresNewTool
    shouldUpdateExistingTool := shouldUpdateExistingTool
    suggestedToolName :=
      if requiresNewTool then some (suggestToolName query) else none
    suggestedRequirements :=
      if requiresNewTool || shouldUpdateExistingTool then
        some (extractRequirements query)
      else none
    matchingExistingTool :=
      match matchingTool with
      | some t => some t
      | none =>
        if shouldUpdateExistingTool then
          getToolForUpdate lowerQuery availableTools
        else none }

/-- C7: the analyzer resolves its two top-level flags as
`requiresNewTool = (explicit ∨ implicit) ∧ ¬matched` and
`shouldUpdateExistingTool = updateDetected ∨ (matched ∧ explicit)`, each
component computed by the corresponding detector on the lowercased query. -/
theorem analyzeQuery_resolution (query : String) (tools : List ITool) :
    (analyzeQuery query tools).requiresNewTool
      = ((detectExplicitToolCreationIntent (jsToLower query)
          || detectImplicitToolCreationIntent (jsToLower query) tools)
         && (findMatchingExistingTool (jsToLower query) tools).isNone)
    ∧ (analyzeQuery query tools).shouldUpdateExistingTool
      = (detectToolUpdateIntent (jsToLower query) tools
         || ((findMatchingExistingTool (jsToLower query) tools).isSome
             && detectExplicitToolCreationIntent (jsToLower query))) :=
  ⟨rfl, rfl⟩

theorem analyzeQuery_suggestedRequirements_eq (query : String)
    (tools : List ITool) :
    (analyzeQuery query tools).suggestedRequirements
      = if (analyzeQuery query tools).requiresNewTool
           || (analyzeQuery query tools).shouldUpdateExistingTool then
          some (extractRequirements query)
        else none := rfl

theorem analyzeQuery_suggestedToolName_eq (query : String)
    (tools : List ITool) :
    (analyzeQuery query tools).suggestedToolName
      = if (analyzeQuery query tools).requiresNewTool then
          some (suggestToolName query)
        else none := rfl

/-- C8 counterexample: on the query "update the weather tool" with no tools
registered, the analyzer reports `shouldUpdateExistingTool = true` yet returns
no suggested tool name at all — refuting the claim that a suggested name is
carried whenever `requiresNewTool` or `shouldUpdateExistingTool` is true. -/
theorem analyzeQuery_update_only_lacks_name :
    (analyzeQuery "update the weather tool" []).shouldUpdateExistingTool = true
    ∧ (analyzeQuery "update the weather tool" []).suggestedToolName = none :=
  ⟨by decide, by decide⟩

/-- C8 (amended): when `requiresNewTool` or `shouldUpdateExistingTool` is
true, the analysis carries the suggested requirements string (boilerplate
stripped, first one-to-two sentences kept); the suggested snake_case tool
name is carried exactly when `requiresNewTool` is true — an update-only
analysis has no suggested name. -/
theorem analyzeQuery_suggestion_fields (query : String) (tools : List ITool)
    (h : (analyzeQuery query tools).requiresNewTool = true
         ∨ (analyzeQuery query tools).shouldUpdateExistingTool = true) :
    (analyzeQuery query tools).suggestedRequirements
      = some (extractRequirements query)
    ∧ (analyzeQuery query tools).suggestedToolName
      = (if (analyzeQuery query tools).requiresNewTool then
          some (suggestToolName query)
        else none) := by
  refine ⟨?_, analyzeQuery_suggestedToolName_eq query tools⟩
  rw [analyzeQuery_suggestedRequirements_eq]
  rcases h with h | h <;> simp [h]

theorem analyzeQuery_suggestion_fields_witness :
    ((analyzeQuery "update the weather tool" []).requiresNewTool = true
     ∨ (analyzeQuery "update the weather tool" []).shouldUpdateExistingTool = true)
    ∧ ((analyzeQuery "update the weather tool" []).suggestedRequirements
        = some (extractRequirements "update the weather tool")
       ∧ (analyzeQuery "update the weather tool" []).suggestedToolName
        = (if (analyzeQuery "update the weather tool" []).requiresNewTool then
            some (suggestToolName "update the weather tool")
          else none)) :=
  ⟨Or.inr (by decide),
    analyzeQuery_suggestion_fields "update the weather tool" [] (Or.inr (by decide))⟩

/-! Capability synthesis pipeline: ToolCreatorTool and createToolWithLLM,
src/toolCreator.ts. -/

/-- ToolSpecification, src/toolCreator.ts lines 117-124. The JSON-schema
field is carried as its JSON text. -/
structure ToolSpecification where
  tool_name : String
  tool_description : String
  input_parameters_schema : String
  output_description : String
  update_description : Option String := none
  preserve_functionality : Option (List String) := none
deriving DecidableEq, Repr

/-- ToolCreationResult, src/toolCreator.ts lines 126-132. -/
structure ToolCreationResult where
  success : Bool
  toolName : Option String := none
  toolCode : Option String := none
  error : Option String := none
  isUpdate : Option Bool := none
deriving DecidableEq, Repr

/-- Fields JSON.parse may deliver for the creator arguments (src/toolCreator.ts
lines 38-42); `none` is an absent field. Non-string JSON values for the three
string fields are outside the model. -/
structure CreatorArgs where
  operation : Option String := none
  tool_name : Option String := none
  tool_requirements_free_text : Option String := none
  preserve_functionality : Option (List String) := none
deriving DecidableEq, Repr

/-- External effects of the synthesis pipeline: the JSON.parse of the argument
string (`Except.error` is a thrown exception with that message), and the
assistant message the isolated code-generation call to sendMessageToOpenAI
returns. The code-generation prompt is a pure function of the specification
and the operation flag, so the oracle is keyed by those. -/
structure CreatorEnv where
  parseArgs : String → Except String CreatorArgs
  codegenResponse : ToolSpecification → Bool → Option Message

/-- JS truthiness of an optional string: undefined and "" are falsy. -/
def jsTruthyStr : Option String → Bool
  | none => false
  | some s => !(s == "")

/-- List-level suffix test. -/
def charsEndWith (cs pat : List Char) : Bool :=
  pat.reverse.isPrefixOf cs.reverse

/-- The fence-stripping step of createToolWithLLM (src/toolCreator.ts lines
238-245): trim; when the text starts with a three-backtick-typescript fence,
drop it, drop a trailing three-backtick fence if present, and trim again. -/
def stripCodeFences (content : String) : String :=
  let generatedCode := trimChars content.data
  if ("```typescript").data.isPrefixOf generatedCode then
    let g1 := generatedCode.drop (("```typescript").data.length)
    let g2 := if charsEndWith g1 (("```").data) then
        g1.take (g1.length - 3)
      else g1
    String.mk (trimChars g2)
  else
    String.mk generatedCode

/-- The error text of createToolWithLLM when no code content came back
(src/toolCreator.ts line 255). -/
def llmNoCodeError (isUpdate : Bool) : String :=
  "LLM did not return code content for tool " ++
    (if isUpdate then "update" else "generation") ++ "."

/-- createToolWithLLM, src/toolCreator.ts lines 220-264: one isolated LLM
round trip; a truthy `content` yields success with the fence-stripped code,
anything else the structured failure carrying toolName and isUpdate. -/
def createToolWithLLM (env : CreatorEnv) (toolSpec : ToolSpecification)
    (isUpdate : Bool) : ToolCreationResult :=
  match env.codegenResponse toolSpec isUpdate with
  | some llmResponse =>
    match llmResponse.content with
    | some c =>
      if c == "" then
        { success := false, error := some (llmNoCodeError isUpdate),
          toolName := some toolSpec.tool_name, isUpdate := some isUpdate }
      else
        { success := true, toolCode := some (stripCodeFences c),
          toolName := some toolSpec.tool_name, isUpdate := some isUpdate }
    | none =>
      { success := false, error := some (llmNoCodeError isUpdate),
        toolName := some toolSpec.tool_name, isUpdate := some isUpdate }
  | none =>
    { success := false, error := some (llmNoCodeError isUpdate),
      toolName := some toolSpec.tool_name, isUpdate := some isUpdate }

/-- The placeholder input schema ToolCreatorTool hands to the pipeline
(src/toolCreator.ts lines 75-80 and 100-105), rendered as JSON text. -/
def exampleSchemaJson : String :=
  "\x7b \"type\": \"object\", \"properties\": \x7b \"arg1\": \x7b \"type\": \"string\", \"description\": \"Example argument, LLM should define actual based on needs.\" \x7d \x7d \x7d"

/-- ToolCreatorTool.handleCreateTool, src/toolCreator.ts lines 71-87. -/
def handleCreateTool (env : CreatorEnv) (toolName requirementsText : String) :
    ToolCreationResult :=
  createToolWithLLM env
    { tool_name := toolName
      tool_description := requirementsText
      input_parameters_schema := exampleSchemaJson
      output_description := "LLM should define this based on the tool_description." }
    false

/-- ToolCreatorTool.handleUpdateTool, src/toolCreator.ts lines 90-114. -/
def handleUpdateTool (env : CreatorEnv) (toolName updateRequirements : String)
    (preserveFunctionality : List String) : ToolCreationResult :=
  createToolWithLLM env
    { tool_name := toolName
      tool_description := updateRequirements
      input_parameters_schema := exampleSchemaJson
      output_description := "LLM should define this based on the update_description."
      update_description := some updateRequirements
      preserve_functionality := some preserveFunctionality }
    true

/-- The result of the missing-required-fields check, src/toolCreator.ts
lines 44-49. -/
def missingFieldsResult : ToolCreationResult :=
  { success := false,
    error := some "Missing required fields: operation, tool_name, or tool_requirements_free_text" }

/-- The result of the invalid-operation branch, src/toolCreator.ts lines 55-60. -/
def invalidOperationResult : ToolCreationResult :=
  { success := false,
    error := some "Invalid operation. Must be 'create' or 'update'" }

/-- The catch-all result, src/toolCreator.ts lines 61-67:
`error.message || "Failed to process tool creation request"`. -/
def catchResult (msg : String) : ToolCreationResult :=
  { success := false,
    error := some (if msg == "" then "Failed to process tool creation request" else msg) }

/-- ToolCreatorTool.execute, src/toolCreator.ts lines 35-68. The try/catch
around the whole body turns the JSON.parse throw into `catchResult`; every
branch is a ToolCreationResult (the JS method resolves to its JSON.stringify,
`toolCreatorExecuteJson`), so no exception escapes. -/
def toolCreatorExecute (env : CreatorEnv) (args : String) : ToolCreationResult :=
  match env.parseArgs args with
  | .error e => catchResult e
  | .ok parsedArgs =>
    if !jsTruthyStr parsedArgs.operation
        || !jsTruthyStr parsedArgs.tool_name
        || !jsTruthyStr parsedArgs.tool_requirements_free_text then
      missingFieldsResult
    else
      let operation := parsedArgs.operation.getD ""
      let toolName := parsedArgs.tool_name.getD ""
      let requirementsText := parsedArgs.tool_requirements_free_text.getD ""
      let preserveFunctionality := parsedArgs.preserve_functionality.getD []
      if operation == "create" then
        handleCreateTool env toolName requirementsText
      else if operation == "update" then
        handleUpdateTool env toolName requirementsText preserveFunctionality
      else invalidOperationResult

/-- Model of JSON.stringify on a ToolCreationResult: present fields in
declaration order, absent optionals omitted, string values quoted
(escaping not modelled). -/
def encodeToolCreationResult (r : ToolCreationResult) : String :=
  "\x7b\"success\":" ++ (if r.success then "true" else "false")
  ++ (match r.toolName with
      | some v => ",\"toolName\":\"" ++ v ++ "\""
      | none => "")
  ++ (match r.toolCode with
      | some v => ",\"toolCode\":\"" ++ v ++ "\""
      | none => "")
  ++ (match r.error with
      | some v => ",\"error\":\"" ++ v ++ "\""
      | none => "")
  ++ (match r.isUpdate with
      | some b => ",\"isUpdate\":" ++ (if b then "true" else "false")
      | none => "")
  ++ "\x7d"

/-- The JSON string ToolCreatorTool.execute resolves to. -/
def toolCreatorExecuteJson (env : CreatorEnv) (args : String) : String :=
  encodeToolCreationResult (toolCreatorExecute env args)

theorem createToolWithLLM_failure_fields (env : CreatorEnv)
    (spec : ToolSpecification) (b : Bool)
    (h : (createToolWithLLM env spec b).success = false) :
    (createToolWithLLM env spec b).error.isSome = true
    ∧ (createToolWithLLM env spec b).toolName = some spec.tool_name
    ∧ (createToolWithLLM env spec b).isUpdate = some b := by
  unfold createToolWithLLM at h ⊢
  cases hr : env.codegenResponse spec b with
  | none => simp
  | some m =>
    simp only [hr] at h ⊢
    cases hc : m.content with
    | none => simp
    | some c =>
      simp only [hc] at h ⊢
      by_cases he : (c == "") = true
      · simp [he]
      · simp [he] at h

/-- The missing-required-fields test of ToolCreatorTool.execute (line 44):
`!operation || !toolName || !requirementsText` under JS truthiness. -/
def missingFieldCheck (a : CreatorArgs) : Bool :=
  !jsTruthyStr a.operation || !jsTruthyStr a.tool_name
    || !jsTruthyStr a.tool_requirements_free_text

/-- C3: ToolCreatorTool.execute always resolves to the JSON encoding of a
ToolCreationResult (never an exception); each failing step short-circuits the
rest — a JSON.parse throw yields the catch result, missing fields and an
invalid operation yield their fixed failure results, all with success false
and an error string — and a failure inside createToolWithLLM additionally
carries toolName and isUpdate. -/
theorem toolCreator_execute_structured_failures (env : CreatorEnv)
    (args : String) :
    toolCreatorExecuteJson env args
      = encodeToolCreationResult (toolCreatorExecute env args)
    ∧ (∀ e, env.parseArgs args = .error e →
        toolCreatorExecute env args = catchResult e)
    ∧ (∀ msg, (catchResult msg).success = false
        ∧ (catchResult msg).error.isSome = true)
    ∧ (∀ a, env.parseArgs args = .ok a → missingFieldCheck a = true →
        toolCreatorExecute env args = missingFieldsResult)
    ∧ (missingFieldsResult.success = false
       ∧ missingFieldsResult.error.isSome = true)
    ∧ (∀ a, env.parseArgs args = .ok a → missingFieldCheck a = false →
        (a.operation.getD "" == "create") = false →
        (a.operation.getD "" == "update") = false →
        toolCreatorExecute env args = invalidOperationResult)
    ∧ (invalidOperationResult.success = false
       ∧ invalidOperationResult.error.isSome = true)
    ∧ (∀ spec b, (createToolWithLLM env spec b).success = false →
        (createToolWithLLM env spec b).error.isSome = true
        ∧ (createToolWithLLM env spec b).toolName = some spec.tool_name
        ∧ (createToolWithLLM env spec b).isUpdate = some b) := by
  refine ⟨rfl, ?_, ?_, ?_, ?_, ?_, ?_, ?_⟩
  · intro e he
    simp [toolCreatorExecute, he]
  · intro msg
    exact ⟨rfl, by simp [catchResult]⟩
  · intro a ha hmf
    rw [missingFieldCheck] at hmf
    simp [toolCreatorExecute, ha, hmf]
  · exact ⟨rfl, rfl⟩
  · intro a ha hmf h1 h2
    simp only [toolCreatorExecute, ha]
    rw [missingFieldCheck] at hmf
    simp [hmf, h1, h2]
  · exact ⟨rfl, rfl⟩
  · exact fun spec b h => createToolWithLLM_failure_fields env spec b h

/-- A concrete environment whose JSON.parse always throws and whose
code-generation call never returns content. -/
def c3FailingEnv : CreatorEnv :=
  { parseArgs := fun _ => .error "Unexpected token o in JSON at position 1"
    codegenResponse := fun _ _ => none }

/-- The sample specification of src/testToolCreator.ts, lines 51-63. -/
def c3SampleSpec : ToolSpecification :=
  { tool_name := "simple_adder"
    tool_description := "A tool that adds two numbers."
    input_parameters_schema := exampleSchemaJson
    output_description := "A JSON string containing the sum of the two numbers." }

theorem toolCreator_execute_structured_failures_witness :
    (c3FailingEnv.parseArgs "not json"
        = .error "Unexpected token o in JSON at position 1"
     ∧ toolCreatorExecute c3FailingEnv "not json"
        = catchResult "Unexpected token o in JSON at position 1")
    ∧ ((createToolWithLLM c3FailingEnv c3SampleSpec true).success = false
       ∧ (createToolWithLLM c3FailingEnv c3SampleSpec true).error.isSome = true
       ∧ (createToolWithLLM c3FailingEnv c3SampleSpec true).toolName
          = some c3SampleSpec.tool_name
       ∧ (createToolWithLLM c3FailingEnv c3SampleSpec true).isUpdate = some true) :=
  ⟨⟨rfl,
    (toolCreator_execute_structured_failures c3FailingEnv "not json").2.1 _ rfl⟩,
   ⟨rfl,
    (toolCreator_execute_structured_failures c3FailingEnv "not json").2.2.2.2.2.2.2
      c3SampleSpec true rfl⟩⟩

/-! The two LLM clients: sendMessageToOpenAI (src/openaiClient.ts) and
LLMClient.sendMessage (src/services/llmClient.ts). The OpenAI SDK call is the
oracle: `.error` models a rejected promise, `.ok` the completion object. -/

/-- The message inside a completion choice as the clients read it. -/
structure OpenAIMessageSim where
  content : Option String := none
  tool_calls : Option (List ToolCall) := none
deriving DecidableEq, Repr

/-- One completion choice; `message` may be absent. -/
structure ChoiceSim where
  message : Option OpenAIMessageSim := none
deriving DecidableEq, Repr

/-- The completion object returned by the SDK. -/
structure CompletionSim where
  choices : List ChoiceSim
deriving DecidableEq, Repr

/-- sendMessageToOpenAI, src/openaiClient.ts lines 32-99: a missing choice or
message, a message with neither non-empty text nor tool calls, and a thrown
SDK error all yield null; otherwise the adapted assistant Message. -/
def sendMessageToOpenAI (api : Except String CompletionSim) : Option Message :=
  match api with
  | .error _ => none
  | .ok completion =>
    match completion.choices.head? with
    | none => none
    | some choice =>
      match choice.message with
      | none => none
      | some assistantResponse =>
        let hasTextContent :=
          match assistantResponse.content with
          | some c => !(jsTrim c == "")
          | none => false
        let hasToolCalls :=
          match assistantResponse.tool_calls with
          | some tcs => decide (tcs.length > 0)
          | none => false
        if !hasTextContent && !hasToolCalls then none
        else
          some { role := .assistant
                 content :=
                   match assistantResponse.content with
                   | some c => if c == "" then none else some c
                   | none => none
                 tool_calls :=
                   if hasToolCalls then assistantResponse.tool_calls else none }

/-- LLMClient.sendMessage, src/services/llmClient.ts lines 47-104: throws on
a rejected SDK call, on missing choices and on a missing message, and
otherwise converts the message — with no emptiness check — into an assistant
Message. -/
def llmClientSendMessage (api : Except String CompletionSim) :
    Except String Message :=
  match api with
  | .error e => .error e
  | .ok response =>
    match response.choices with
    | [] => .error "Invalid response from OpenAI: No choices returned"
    | choice :: _ =>
      match choice.message with
      | none => .error "Invalid response from OpenAI: No message in choice"
      | some m =>
        .ok { role := .assistant, content := m.content,
              tool_calls := m.tool_calls }

/-- C6 counterexample: LLMClient.sendMessage, fed a completion whose single
choice carries a message with neither content nor tool calls, returns that
empty assistant Message as a success — it does not surface a null/failure
result, refuting the claim for this client. -/
theorem llmClient_coerces_empty_message :
    llmClientSendMessage
        (.ok { choices := [{ message := some {} }] })
      = .ok { role := .assistant, content := none, tool_calls := none } := rfl

/-- C6 (amended): sendMessageToOpenAI — the client the agent loop uses —
returns null for every completion whose first choice's message has neither
non-empty (after trimming) text content nor a non-empty tool_calls array;
LLMClient.sendMessage, by contrast, only throws on missing choices or message
and coerces the neither case into an empty assistant Message. -/
theorem sendMessageToOpenAI_empty_is_null (completion : CompletionSim)
    (choice : ChoiceSim) (ar : OpenAIMessageSim)
    (hc : completion.choices.head? = some choice)
    (hm : choice.message = some ar)
    (htext : ∀ c, ar.content = some c → jsTrim c = "")
    (htc : ∀ tcs, ar.tool_calls = some tcs → tcs = []) :
    sendMessageToOpenAI (.ok completion) = none := by
  have h1 : (match ar.content with
      | some c => !(jsTrim c == "")
      | none => false) = false := by
    cases hct : ar.content with
    | none => rfl
    | some c => simp [htext c hct]
  have h2 : (match ar.tool_calls with
      | some tcs => decide (tcs.length > 0)
      | none => false) = false := by
    cases hx : ar.tool_calls with
    | none => rfl
    | some tcs => simp [htc tcs hx]
  simp [sendMessageToOpenAI, hc, hm, h1, h2]

/-- A message with whitespace-only content and an empty tool_calls array. -/
def c6EmptyMsg : OpenAIMessageSim := { content := some "  ", tool_calls := some [] }

def c6Choice : ChoiceSim := { message := some c6EmptyMsg }

def c6Completion : CompletionSim := { choices := [c6Choice] }

theorem sendMessageToOpenAI_empty_is_null_witness :
    (c6Completion.choices.head? = some c6Choice
     ∧ c6Choice.message = some c6EmptyMsg
     ∧ (∀ c, c6EmptyMsg.content = some c → jsTrim c = "")
     ∧ (∀ tcs, c6EmptyMsg.tool_calls = some tcs → tcs = []))
    ∧ sendMessageToOpenAI (.ok c6Completion) = none :=
  ⟨⟨rfl, rfl,
    fun c hcc => by cases hcc; rfl,
    fun tcs htcs => by cases htcs; rfl⟩,
   sendMessageToOpenAI_empty_is_null c6Completion c6Choice c6EmptyMsg rfl rfl
     (fun c hcc => by cases hcc; rfl)
     (fun tcs htcs => by cases htcs; rfl)⟩

/-! Agent loop, src/main.ts (processLLMResponse and the readline handler). -/

/-- A registered tool as the loop sees it: name plus execute behaviour
(`.error` models a rejected promise / thrown error with that message). -/
structure RegTool where
  name : String
  exec : String → Except String String

/-- ToolRegistry.getTool, src/tools/toolRegistry.ts lines 21-23. -/
def getRegTool (tools : List RegTool) (n : String) : Option RegTool :=
  tools.find? (fun t => t.name == n)

/-- ToolRegistry.registerTool, src/tools/toolRegistry.ts lines 14-19
(`Map.set` keyed by name, warning on collision). -/
def registerRegTool (tools : List RegTool) (t : RegTool) : List RegTool :=
  match tools with
  | [] => [t]
  | u :: rest =>
    if u.name = t.name then t :: rest else u :: registerRegTool rest t

/-- Oracles for the effects inside the creation branch of processLLMResponse
that the repository does not itself compute: the JSON.parse of the tool
result string (line 77) and of the original arguments (line 136), the
filesystem save (lines 88-94), and the dynamic import of the compiled module
(line 112; `.ok none` is a module without default export). `genPrompt` is
getMainSystemPrompt composed with getOpenAITools (lines 122 and 266). The
local compile step (lines 97-104) catches its own errors and has no modelled
effect. -/
structure CreationWorld where
  parseCreationResult : String → Except String ToolCreationResult
  parseArgsToolName : String → Except String (Option String)
  fsSave : String → String → Except String Unit
  importTool : String → Except String (Option RegTool)
  genPrompt : List RegTool → String

/-- The conversation and registry state threaded through a turn. -/
structure LoopState where
  conversation : List Message
  registry : List RegTool

/-- Push one message onto the canonical conversation. -/
def appendMsg (st : LoopState) (m : Message) : LoopState :=
  { st with conversation := st.conversation ++ [m] }

/-- Template interpolation of a possibly-undefined string. -/
def jsDisplay : Option String → String
  | some s => s
  | none => "undefined"

/-- The tool-role message of the creation-branch catch, src/main.ts
lines 150-155. -/
def creationCatchMsg (tc : ToolCall) (e : String) : Message :=
  { role := .tool,
    content := some ("Error processing 'request_tool_creation' tool call: " ++ e),
    name := some "request_tool_creation", tool_call_id := some tc.id }

/-- The message when the creator tool is missing from the registry,
src/main.ts lines 160-165. -/
def creationCriticalMsg (tc : ToolCall) : Message :=
  { role := .tool,
    content := some "Critical error: The 'request_tool_creation' tool handler is missing internally.",
    name := some "request_tool_creation", tool_call_id := some tc.id }

/-- The message when the pipeline reported failure, src/main.ts lines 136-138
(template interpolation of a possibly-undefined error). -/
def creationFailedMsg (tc : ToolCall) (toolNameForError : String)
    (err : Option String) : Message :=
  { role := .tool,
    content := some ("Tool creation attempt for '" ++ toolNameForError ++
      "' failed. Error: " ++ jsDisplay err),
    name := some "request_tool_creation", tool_call_id := some tc.id }

/-- The message when the dynamic import or registration failed, src/main.ts
lines 130-134. -/
def importFailedMsg (tc : ToolCall) (createdToolName e : String) : Message :=
  { role := .tool,
    content := some ("Tool '" ++ createdToolName ++
      "' TypeScript source was generated and saved to 'src/tools/generated/', but failed during dynamic import/registration (likely needs compilation to JS in 'dist'). Error: " ++ e),
    name := some "request_tool_creation", tool_call_id := some tc.id }

/-- The message of the fully successful creation path, src/main.ts line 120. -/
def creationSuccessMsg (tc : ToolCall) (createdToolName : String) : Message :=
  { role := .tool,
    content := some ("Tool '" ++ createdToolName ++
      "' was successfully created, saved to src, and an attempt was made to import and register the compiled version. It should now be available for use."),
    name := some "request_tool_creation", tool_call_id := some tc.id }

/-- The generated file name, src/main.ts line 86:
`createdToolName.replace(/[^a-zA-Z0-9_]/g, "_") + ".ts"`. -/
def creationFileName (createdToolName : String) : String :=
  String.mk (createdToolName.data.map
    (fun c => if c.isAlphanum || c == '_' then c else '_')) ++ ".ts"

/-- Lines 122-126: regenerate systemPromptMessage.content and replace
position 0 of the conversation when it is the system message. -/
def refreshSystemPrompt (conv : List Message) (newPrompt : String) :
    List Message :=
  match conv with
  | m :: rest =>
    if m.role == .system then
      { role := .system, content := some newPrompt } :: rest
    else m :: rest
  | [] => []

/-- The name used in the failure message, src/main.ts line 136:
`creationResult.toolName || JSON.parse(args).tool_name || "unknown_tool"`
(the JSON.parse may throw, landing in the catch). -/
def toolNameForError (env : CreationWorld) (creationResult : ToolCreationResult)
    (tc : ToolCall) : Except String String :=
  if jsTruthyStr creationResult.toolName then
    .ok (creationResult.toolName.getD "")
  else
    match env.parseArgsToolName tc.arguments with
    | .error e => .error e
    | .ok tn => .ok (if jsTruthyStr tn then tn.getD "" else "unknown_tool")

/-- The request_tool_creation branch of processLLMResponse, src/main.ts lines
69-167, for one tool call: the new state, whether registration succeeded
(line 119), and the value assigned to createdToolName (line 85), if any. -/
def processCreationCall (env : CreationWorld) (st : LoopState) (tc : ToolCall) :
    LoopState × Bool × Option String :=
  match getRegTool st.registry "request_tool_creation" with
  | none => (appendMsg st (creationCriticalMsg tc), false, none)
  | some toolCreator =>
    match toolCreator.exec tc.arguments with
    | .error e => (appendMsg st (creationCatchMsg tc e), false, none)
    | .ok toolResultString =>
      match env.parseCreationResult toolResultString with
      | .error e => (appendMsg st (creationCatchMsg tc e), false, none)
      | .ok creationResult =>
        if creationResult.success && jsTruthyStr creationResult.toolCode
            && jsTruthyStr creationResult.toolName then
          match env.fsSave (creationFileName (creationResult.toolName.getD ""))
              (creationResult.toolCode.getD "") with
          | .error e =>
            (appendMsg st (creationCatchMsg tc e), false,
              some (creationResult.toolName.getD ""))
          | .ok _ =>
            match env.importTool
                (creationFileName (creationResult.toolName.getD "")) with
            | .error e =>
              (appendMsg st
                (importFailedMsg tc (creationResult.toolName.getD "") e),
                false, some (creationResult.toolName.getD ""))
            | .ok none =>
              (appendMsg st
                (importFailedMsg tc (creationResult.toolName.getD "")
                  "Generated tool module does not have a default export."),
                false, some (creationResult.toolName.getD ""))
            | .ok (some newToolInstance) =>
              let registry2 := registerRegTool st.registry newToolInstance
              (appendMsg
                { conversation :=
                    refreshSystemPrompt st.conversation (env.genPrompt registry2)
                  registry := registry2 }
                (creationSuccessMsg tc (creationResult.toolName.getD "")),
                true, some (creationResult.toolName.getD ""))
        else
          match toolNameForError env creationResult tc with
          | .error e => (appendMsg st (creationCatchMsg tc e), false, none)
          | .ok nm =>
            (appendMsg st (creationFailedMsg tc nm creationResult.error),
              false, none)

/-- The tool-role message of a successful ordinary tool call, src/main.ts
lines 177-182. -/
def toolResultMsg (tc : ToolCall) (toolName result : String) : Message :=
  { role := .tool, content := some result,
    name := some toolName, tool_call_id := some tc.id }

/-- The tool-role message of a thrown ordinary tool call, src/main.ts
lines 186-191. -/
def toolExecErrorMsg (tc : ToolCall) (toolName e : String) : Message :=
  { role := .tool, content := some ("Error executing tool: " ++ e),
    name := some toolName, tool_call_id := some tc.id }

/-- The tool-role message of an unknown tool name, src/main.ts lines 196-201. -/
def toolNotFoundMsg (tc : ToolCall) : Message :=
  { role := .tool,
    content := some ("Error: Tool \"" ++ tc.fname ++ "\" not found."),
    name := some tc.fname, tool_call_id := some tc.id }

/-- The ordinary-tool branch of processLLMResponse, src/main.ts lines 168-203:
result, thrown error and unknown name each append one tool-role message. -/
def processStandardCall (st : LoopState) (tc : ToolCall) : LoopState :=
  match getRegTool st.registry tc.fname with
  | some tool =>
    match tool.exec tc.arguments with
    | .ok toolResultString => appendMsg st (toolResultMsg tc tool.name toolResultString)
    | .error e => appendMsg st (toolExecErrorMsg tc tool.name e)
  | none => appendMsg st (toolNotFoundMsg tc)

/-- The per-turn flags of the tool phase, src/main.ts lines 63-66. -/
structure PhaseFlags where
  aRealToolWasExecuted : Bool := false
  toolCreationAttempted : Bool := false
  toolCreationSuccessful : Bool := false
  createdToolName : Option String := none

/-- The for-loop over assistantMessage.tool_calls, src/main.ts lines 68-205:
strictly sequential, one appended tool message per call, flags threaded. -/
def processToolCalls (env : CreationWorld) :
    List ToolCall → LoopState → PhaseFlags → LoopState × PhaseFlags
  | [], st, fl => (st, fl)
  | tc :: rest, st, fl =>
    if tc.fname == "request_tool_creation" then
      let r := processCreationCall env st tc
      processToolCalls env rest r.1
        { fl with toolCreationAttempted := true
                  toolCreationSuccessful := fl.toolCreationSuccessful || r.2.1
                  createdToolName :=
                    match r.2.2 with
                    | some n => some n
                    | none => fl.createdToolName }
    else
      processToolCalls env rest (processStandardCall st tc)
        { fl with aRealToolWasExecuted := true }

/-- The interstitial content sent (but never persisted) with the follow-up
request, src/main.ts lines 207-217. -/
def nextMessageContent (fl : PhaseFlags) (toolCallCount : Nat) : String :=
  if fl.toolCreationAttempted then
    if fl.toolCreationSuccessful && jsTruthyStr fl.createdToolName then
      "Tool '" ++ fl.createdToolName.getD "" ++
        "' has been successfully created and registered. Please now use this tool if appropriate to fulfill the original request, or continue the conversation."
    else
      "The attempt to create a requested tool has concluded. Please proceed based on available tools or by rephrasing your request."
  else if !fl.aRealToolWasExecuted && decide (toolCallCount > 0) then
    "A tool call was made, but it seems no standard tool was executed. Please assess the situation and proceed."
  else
    "Proceed based on the tool results."

/-- One scripted sendMessageToOpenAI call of the loop: the next pre-recorded
response, or null once the script is exhausted. -/
def scriptedSend : List (Option Message) →
    Option Message × List (Option Message)
  | [] => (none, [])
  | r :: rest => (r, rest)

/-- Observables of one user turn: final state, unconsumed script, number of
sendMessageToOpenAI calls the loop itself made (the pipeline's isolated call
lives inside the opaque tool execute), the contents those calls carried, and
how many times the cycle-budget apology was printed to the console. -/
structure TurnResult where
  state : LoopState
  script : List (Option Message)
  requests : Nat
  sentContents : List String
  apologiesPrinted : Nat

/-- processLLMResponse, src/main.ts lines 48-231. A null response just
prints; with the cycle counter at zero the apology is printed and the
received assistant message is discarded — nothing is appended; otherwise the
assistant message is appended, and if it carries a non-empty tool_calls array
the tool phase runs, one follow-up request is issued and the loop recurses
with the counter decremented. -/
def processLLMResponse (env : CreationWorld) (msg : Option Message)
    (cyclesRemaining : Nat) (st : LoopState)
    (script : List (Option Message)) : TurnResult :=
  match msg with
  | none => ⟨st, script, 0, [], 0⟩
  | some assistantMessage =>
    match cyclesRemaining with
    | 0 => ⟨st, script, 0, [], 1⟩
    | c + 1 =>
      let st1 := appendMsg st assistantMessage
      match assistantMessage.tool_calls with
      | some tcs =>
        if decide (tcs.length > 0) then
          let phase := processToolCalls env tcs st1 {}
          let content := nextMessageContent phase.2 tcs.length
          let sr := scriptedSend script
          let sub := processLLMResponse env sr.1 c phase.1 sr.2
          ⟨sub.state, sub.script, sub.requests + 1,
            content :: sub.sentContents, sub.apologiesPrinted⟩
        else ⟨st1, script, 0, [], 0⟩
      | none => ⟨st1, script, 0, [], 0⟩

/-- MAX_TOOL_RESPONSE_CYCLES, src/main.ts line 21. -/
def MAX_TOOL_RESPONSE_CYCLES : Nat := 10

/-- One user turn of the readline handler, src/main.ts lines 277-282: append
the user message, make the initial sendMessageToOpenAI call, then
processLLMResponse with the full cycle budget. -/
def runUserTurn (env : CreationWorld) (st : LoopState) (userInput : String)
    (script : List (Option Message)) : TurnResult :=
  let st1 := appendMsg st { role := .user, content := some userInput }
  let sr := scriptedSend script
  let sub := processLLMResponse env sr.1 MAX_TOOL_RESPONSE_CYCLES st1 sr.2
  ⟨sub.state, sub.script, sub.requests + 1,
    userInput :: sub.sentContents, sub.apologiesPrinted⟩

/-- A scripted response that carries only tool calls (a non-empty tool_calls
array on an assistant message). -/
def isToolCallsOnly : Option Message → Bool
  | some m =>
    match m.tool_calls with
    | some tcs => decide (tcs.length > 0)
    | none => false
  | none => false

/-- The console apology of src/main.ts line 56 (printed, never appended). -/
def apologyConsoleText : String :=
  "I seem to be stuck in a loop. Please try rephrasing your request or type 'clear' to reset."

/-- A weather tool whose execute always resolves. -/
def c1Tool : RegTool :=
  { name := "weather", exec := fun _ => .ok "\x7b\"temperatureCelsius\":22\x7d" }

/-- Oracles that are never consulted in the counterexample run (no
request_tool_creation call occurs). -/
def c1Env : CreationWorld :=
  { parseCreationResult := fun _ => .error "unused"
    parseArgsToolName := fun _ => .error "unused"
    fsSave := fun _ _ => .ok ()
    importTool := fun _ => .ok none
    genPrompt := fun _ => "system prompt" }

/-- An assistant response consisting of a single weather tool call. -/
def c1Response : Message :=
  { role := .assistant, content := none,
    tool_calls :=
      some [ToolCall.mk "call_1" "weather" "\x7b\"location\":\"NYC\"\x7d"] }

/-- Twelve scripted tool-call-only responses. -/
def c1Script : List (Option Message) := List.replicate 12 (some c1Response)

/-- Initial state: the system prompt message and the weather tool. -/
def c1Start : LoopState :=
  { conversation := [{ role := .system, content := some "system prompt" }],
    registry := [c1Tool] }

/-- C1 counterexample: with the default budget of 10 and every simulated LLM
response carrying only tool calls, the user turn makes 11 sendMessageToOpenAI
calls in total — so an 11th LLM request is issued — and no apology Message is
ever appended to the conversation: the apology is only printed to the console
(once), and the 22 conversation entries are the system prompt, the user
message and ten assistant/tool pairs. -/
theorem agentLoop_issues_11th_request_and_appends_no_apology :
    (runUserTurn c1Env c1Start "loop please" c1Script).requests = 11
    ∧ (runUserTurn c1Env c1Start "loop please" c1Script).apologiesPrinted = 1
    ∧ ((runUserTurn c1Env c1Start "loop please" c1Script).state.conversation.all
        (fun m => !(m.content == some apologyConsoleText))) = true
    ∧ (runUserTurn c1Env c1Start "loop please" c1Script).state.conversation.length
        = 22 :=
  ⟨by decide, by decide, by decide, by decide⟩

theorem processLLMResponse_budget (env : CreationWorld) :
    ∀ (c : Nat) (m : Message) (st : LoopState)
      (script : List (Option Message)),
      isToolCallsOnly (some m) = true →
      (∀ r ∈ script, isToolCallsOnly r = true) →
      c ≤ script.length →
      (processLLMResponse env (some m) c st script).requests = c
      ∧ (processLLMResponse env (some m) c st script).apologiesPrinted = 1
      ∧ (processLLMResponse env (some m) c st script).script = script.drop c := by
  intro c
  induction c with
  | zero =>
    intro m st script _ _ _
    exact ⟨rfl, rfl, rfl⟩
  | succ c ih =>
    intro m st script hm hs hlen
    obtain ⟨tcs, htcs, hpos⟩ :
        ∃ tcs, m.tool_calls = some tcs ∧ decide (tcs.length > 0) = true := by
      cases hx : m.tool_calls with
      | none => simp [isToolCallsOnly, hx] at hm
      | some tcs =>
        refine ⟨tcs, rfl, ?_⟩
        simpa [isToolCallsOnly, hx] using hm
    cases script with
    | nil => simp at hlen
    | cons r rest =>
      obtain ⟨m', rfl⟩ : ∃ m', r = some m' := by
        have hr := hs r (by simp)
        cases r with
        | none => simp [isToolCallsOnly] at hr
        | some x => exact ⟨x, rfl⟩
      have hr : isToolCallsOnly (some m') = true := hs (some m') (by simp)
      have hrest : ∀ x ∈ rest, isToolCallsOnly x = true :=
        fun x hx => hs x (by simp [hx])
      have hlen' : c ≤ rest.length := by
        simpa using hlen
      have ihr := ih m'
        (processToolCalls env tcs (appendMsg st m) {}).1 rest hr hrest hlen'
      simp only [processLLMResponse, htcs, hpos, if_true, scriptedSend]
      exact ⟨by rw [ihr.1], ihr.2.1, by rw [ihr.2.2]; rfl⟩

/-- Role of the first conversation message of a state. -/
def convHeadRole (st : LoopState) : Option Role :=
  st.conversation.head?.map Message.role

theorem role_beq_iff (a b : Role) : (a == b) = true ↔ a = b := by
  cases a <;> cases b <;> decide

theorem convHeadRole_appendMsg (st : LoopState) (m : Message) (ρ : Role)
    (h : convHeadRole st = some ρ) : convHeadRole (appendMsg st m) = some ρ := by
  cases hc : st.conversation with
  | nil => rw [convHeadRole, hc] at h; simp at h
  | cons x t =>
    rw [convHeadRole, hc] at h
    simp only [List.head?_cons, Option.map_some'] at h
    rw [convHeadRole]
    simp [appendMsg, hc, h]

theorem refreshSystemPrompt_headRole (conv : List Message) (p : String)
    (ρ : Role) (h : conv.head?.map Message.role = some ρ) :
    (refreshSystemPrompt conv p).head?.map Message.role = some ρ := by
  cases conv with
  | nil => simp at h
  | cons x t =>
    simp only [List.head?_cons, Option.map_some'] at h
    by_cases hx : (x.role == Role.system) = true
    · have hsys : x.role = Role.system := (role_beq_iff _ _).mp hx
      simp [refreshSystemPrompt, hx, ← h, hsys, role_beq_self]
    · simp [refreshSystemPrompt, hx, h]

theorem convHeadRole_standard (st : LoopState) (tc : ToolCall) (ρ : Role)
    (h : convHeadRole st = some ρ) :
    convHeadRole (processStandardCall st tc) = some ρ := by
  unfold processStandardCall
  split
  all_goals try split
  all_goals exact convHeadRole_appendMsg st _ ρ h

theorem convHeadRole_creation (env : CreationWorld) (st : LoopState)
    (tc : ToolCall) (ρ : Role) (h : convHeadRole st = some ρ) :
    convHeadRole (processCreationCall env st tc).1 = some ρ := by
  unfold processCreationCall
  split
  · exact convHeadRole_appendMsg st _ ρ h
  · split
    · exact convHeadRole_appendMsg st _ ρ h
    · split
      · exact convHeadRole_appendMsg st _ ρ h
      · split
        · split
          · exact convHeadRole_appendMsg st _ ρ h
          · split
            · exact convHeadRole_appendMsg st _ ρ h
            · exact convHeadRole_appendMsg st _ ρ h
            · exact convHeadRole_appendMsg _ _ ρ
                (refreshSystemPrompt_headRole st.conversation _ ρ h)
        · split
          · exact convHeadRole_appendMsg st _ ρ h
          · exact convHeadRole_appendMsg st _ ρ h

theorem convHeadRole_phase (env : CreationWorld) (tcs : List ToolCall) :
    ∀ (st : LoopState) (fl : PhaseFlags) (ρ : Role),
      convHeadRole st = some ρ →
      convHeadRole (processToolCalls env tcs st fl).1 = some ρ := by
  induction tcs with
  | nil => intro st fl ρ h; exact h
  | cons tc rest ih =>
    intro st fl ρ h
    by_cases hc : (tc.fname == "request_tool_creation") = true
    · simp only [processToolCalls, hc, if_true]
      exact ih _ _ ρ (convHeadRole_creation env st tc ρ h)
    · simp only [processToolCalls, hc]
      rw [if_neg (by simp [hc])]
      exact ih _ _ ρ (convHeadRole_standard st tc ρ h)

theorem convHeadRole_loop (env : CreationWorld) :
    ∀ (c : Nat) (msg : Option Message) (st : LoopState)
      (script : List (Option Message)) (ρ : Role),
      convHeadRole st = some ρ →
      convHeadRole (processLLMResponse env msg c st script).state = some ρ := by
  intro c
  induction c with
  | zero =>
    intro msg st script ρ h
    cases msg with
    | none => exact h
    | some am => exact h
  | succ c ih =>
    intro msg st script ρ h
    cases msg with
    | none => exact h
    | some am =>
      simp only [processLLMResponse]
      cases htc : am.tool_calls with
      | none => exact convHeadRole_appendMsg st am ρ h
      | some tcs =>
        by_cases hp : decide (tcs.length > 0) = true
        · simp only [hp, if_true]
          exact ih _ _ _ ρ
            (convHeadRole_phase env tcs _ _ ρ (convHeadRole_appendMsg st am ρ h))
        · simp only [hp]
          rw [if_neg (by simp [hp])]
          exact convHeadRole_appendMsg st am ρ h

/-- C1 (amended): with the default cycle budget of 10 and every scripted LLM
response carrying only tool calls, one user turn makes exactly 11
sendMessageToOpenAI calls — the initial one plus ten follow-ups, so an
eleventh request is issued; its response is received at zero cycles remaining
and discarded unprocessed — consumes exactly eleven scripted responses,
prints the console apology exactly once without appending any apology
Message, and leaves the conversation usable for the next turn: its first
message still has role system. -/
theorem agentLoop_cycle_budget (env : CreationWorld) (st : LoopState)
    (userInput : String) (script : List (Option Message))
    (hs : ∀ r ∈ script, isToolCallsOnly r = true)
    (hlen : 11 ≤ script.length)
    (hhead : convHeadRole st = some Role.system) :
    (runUserTurn env st userInput script).requests = 11
    ∧ (runUserTurn env st userInput script).apologiesPrinted = 1
    ∧ (runUserTurn env st userInput script).script = script.drop 11
    ∧ convHeadRole (runUserTurn env st userInput script).state
        = some Role.system := by
  cases script with
  | nil => simp at hlen
  | cons r rest =>
    obtain ⟨m', rfl⟩ : ∃ m', r = some m' := by
      have hr := hs r (by simp)
      cases r with
      | none => simp [isToolCallsOnly] at hr
      | some x => exact ⟨x, rfl⟩
    have hr : isToolCallsOnly (some m') = true := hs (some m') (by simp)
    have hrest : ∀ x ∈ rest, isToolCallsOnly x = true :=
      fun x hx => hs x (by simp [hx])
    have hlen' : MAX_TOOL_RESPONSE_CYCLES ≤ rest.length := by
      rw [MAX_TOOL_RESPONSE_CYCLES]
      simpa using hlen
    have hbudget := processLLMResponse_budget env MAX_TOOL_RESPONSE_CYCLES m'
      (appendMsg st { role := .user, content := some userInput }) rest
      hr hrest hlen'
    have hhd := convHeadRole_loop env MAX_TOOL_RESPONSE_CYCLES (some m')
      (appendMsg st { role := .user, content := some userInput }) rest
      Role.system
      (convHeadRole_appendMsg st _ Role.system hhead)
    refine ⟨?_, ?_, ?_, ?_⟩
    · show (processLLMResponse env (some m') MAX_TOOL_RESPONSE_CYCLES
        (appendMsg st { role := .user, content := some userInput }) rest).requests
          + 1 = 11
      rw [hbudget.1]
      rfl
    · exact hbudget.2.1
    · show (processLLMResponse env (some m') MAX_TOOL_RESPONSE_CYCLES
        (appendMsg st { role := .user, content := some userInput }) rest).script
          = (some m' :: rest).drop 11
      rw [hbudget.2.2]
      rfl
    · exact hhd

theorem agentLoop_cycle_budget_witness :
    ((∀ r ∈ c1Script, isToolCallsOnly r = true)
     ∧ 11 ≤ c1Script.length
     ∧ convHeadRole c1Start = some Role.system)
    ∧ ((runUserTurn c1Env c1Start "loop please" c1Script).requests = 11
       ∧ (runUserTurn c1Env c1Start "loop please" c1Script).apologiesPrinted = 1
       ∧ (runUserTurn c1Env c1Start "loop please" c1Script).script
           = c1Script.drop 11
       ∧ convHeadRole (runUserTurn c1Env c1Start "loop please" c1Script).state
           = some Role.system) :=
  ⟨⟨by decide, by decide, rfl⟩,
    agentLoop_cycle_budget c1Env c1Start "loop please" c1Script
      (by decide) (by decide) rfl⟩

theorem refreshSystemPrompt_length (conv : List Message) (p : String) :
    (refreshSystemPrompt conv p).length = conv.length := by
  cases conv with
  | nil => rfl
  | cons x t =>
    by_cases hx : (x.role == Role.system) = true
    · simp [refreshSystemPrompt, hx]
    · simp [refreshSystemPrompt, hx]

theorem processStandardCall_length (st : LoopState) (tc : ToolCall) :
    (processStandardCall st tc).conversation.length
      = st.conversation.length + 1 := by
  unfold processStandardCall
  split
  all_goals try split
  all_goals simp [appendMsg]

theorem processCreationCall_length (env : CreationWorld) (st : LoopState)
    (tc : ToolCall) :
    (processCreationCall env st tc).1.conversation.length
      = st.conversation.length + 1 := by
  unfold processCreationCall
  split
  · simp [appendMsg]
  · split
    · simp [appendMsg]
    · split
      · simp [appendMsg]
      · split
        · split
          · simp [appendMsg]
          · split
            · simp [appendMsg]
            · simp [appendMsg]
            · simp [appendMsg, refreshSystemPrompt_length]
        · split
          · simp [appendMsg]
          · simp [appendMsg]

theorem processToolCalls_length (env : CreationWorld) (tcs : List ToolCall) :
    ∀ (st : LoopState) (fl : PhaseFlags),
      (processToolCalls env tcs st fl).1.conversation.length
        = st.conversation.length + tcs.length := by
  induction tcs with
  | nil => intro st fl; simp [processToolCalls]
  | cons tc rest ih =>
    intro st fl
    by_cases hc : (tc.fname == "request_tool_creation") = true
    · simp only [processToolCalls, hc, if_true]
      rw [ih, processCreationCall_length]
      simp only [List.length_cons]
      omega
    · simp only [processToolCalls, hc]
      rw [if_neg (by simp [hc]), ih, processStandardCall_length]
      simp only [List.length_cons]
      omega

/-- C9 (amended): every tool execution error in the tool phase — an unknown
tool name, an exception thrown by a tool, or a throw inside the
request_tool_creation handling (its execute, or the JSON.parse of its
results/arguments) — is caught at the loop layer and converted into a
tool-role Message carrying the originating tool_call_id whose content is a
plain-text error string (not a JSON object), appended to the conversation;
no such error aborts the turn: the phase appends exactly one tool message
per call. -/
theorem toolPhase_errors_become_tool_messages (env : CreationWorld)
    (st : LoopState) (tc : ToolCall) (tcs : List ToolCall) (fl : PhaseFlags) :
    (getRegTool st.registry tc.fname = none →
      processStandardCall st tc = appendMsg st (toolNotFoundMsg tc))
    ∧ (∀ tool e, getRegTool st.registry tc.fname = some tool →
        tool.exec tc.arguments = .error e →
        processStandardCall st tc
          = appendMsg st (toolExecErrorMsg tc tool.name e))
    ∧ (∀ creator e,
        getRegTool st.registry "request_tool_creation" = some creator →
        creator.exec tc.arguments = .error e →
        processCreationCall env st tc
          = (appendMsg st (creationCatchMsg tc e), false, none))
    ∧ ((toolNotFoundMsg tc).role = Role.tool
       ∧ (toolNotFoundMsg tc).tool_call_id = some tc.id
       ∧ (∀ nm e, (toolExecErrorMsg tc nm e).role = Role.tool
           ∧ (toolExecErrorMsg tc nm e).tool_call_id = some tc.id)
       ∧ (∀ e, (creationCatchMsg tc e).role = Role.tool
           ∧ (creationCatchMsg tc e).tool_call_id = some tc.id))
    ∧ (processToolCalls env tcs st fl).1.conversation.length
        = st.conversation.length + tcs.length := by
  refine ⟨?_, ?_, ?_,
    ⟨rfl, rfl, fun nm e => ⟨rfl, rfl⟩, fun e => ⟨rfl, rfl⟩⟩,
    processToolCalls_length env tcs st fl⟩
  · intro h
    simp [processStandardCall, h]
  · intro tool e h1 h2
    simp [processStandardCall, h1, h2]
  · intro creator e h1 h2
    simp [processCreationCall, h1, h2]

/-- A necessary condition for a string to be a JSON object: after trimming it
starts with an opening brace and ends with a closing one. -/
def isJsonObjectShaped (s : String) : Bool :=
  ((trimChars s.data).head?.map (fun c => c == '\x7b')).getD false
  && ((trimChars s.data).getLast?.map (fun c => c == '\x7d')).getD false

/-- A registered tool whose execute always throws. -/
def c9Tool : RegTool := { name := "boom_tool", exec := fun _ => .error "boom" }

def c9State : LoopState :=
  { conversation := [{ role := .system, content := some "system prompt" }],
    registry := [c9Tool] }

def c9Call : ToolCall :=
  { id := "call_9", fname := "boom_tool", arguments := "not json" }

/-- C9 counterexample: when a registered tool throws, the loop appends a
tool-role message whose content is the plain English sentence
"Error executing tool: boom" — not a JSON error object (it does not even
start with an opening brace). -/
theorem toolError_content_is_not_json :
    (processStandardCall c9State c9Call).conversation
      = c9State.conversation ++ [toolExecErrorMsg c9Call "boom_tool" "boom"]
    ∧ (toolExecErrorMsg c9Call "boom_tool" "boom").content
      = some "Error executing tool: boom"
    ∧ isJsonObjectShaped "Error executing tool: boom" = false :=
  ⟨rfl, rfl, by decide⟩

/-- A request_tool_creation handler whose execute throws. -/
def c9CreatorTool : RegTool :=
  { name := "request_tool_creation", exec := fun _ => .error "Unexpected token" }

def c9CreatorState : LoopState :=
  { conversation := [{ role := .system, content := some "system prompt" }],
    registry := [c9CreatorTool] }

def c9UnknownCall : ToolCall :=
  { id := "call_u", fname := "ghost", arguments := "\x7b\x7d" }

theorem toolPhase_errors_become_tool_messages_witness :
    (getRegTool c9State.registry c9UnknownCall.fname = none
     ∧ processStandardCall c9State c9UnknownCall
        = appendMsg c9State (toolNotFoundMsg c9UnknownCall))
    ∧ (getRegTool c9State.registry c9Call.fname = some c9Tool
       ∧ c9Tool.exec c9Call.arguments = .error "boom"
       ∧ processStandardCall c9State c9Call
          = appendMsg c9State (toolExecErrorMsg c9Call c9Tool.name "boom"))
    ∧ (getRegTool c9CreatorState.registry "request_tool_creation"
          = some c9CreatorTool
       ∧ c9CreatorTool.exec c9Call.arguments = .error "Unexpected token"
       ∧ processCreationCall c1Env c9CreatorState c9Call
          = (appendMsg c9CreatorState (creationCatchMsg c9Call "Unexpected token"),
             false, none))
    ∧ (processToolCalls c1Env [c9UnknownCall, c9Call] c9State
        {}).1.conversation.length
        = c9State.conversation.length + 2 :=
  ⟨⟨rfl,
    (toolPhase_errors_become_tool_messages c1Env c9State c9UnknownCall [] {}).1 rfl⟩,
   ⟨rfl, rfl,
    (toolPhase_errors_become_tool_messages c1Env c9State c9Call [] {}).2.1
      c9Tool "boom" rfl rfl⟩,
   ⟨rfl, rfl,
    (toolPhase_errors_become_tool_messages c1Env c9CreatorState c9Call [] {}).2.2.1
      c9CreatorTool "Unexpected token" rfl rfl⟩,
   (toolPhase_errors_become_tool_messages c1Env c9State c9UnknownCall
      [c9UnknownCall, c9Call] {}).2.2.2.2⟩

end Agent
